import Mathlib

/-!
Verification of `src/scripts/data_transformation.py` from
franklinle/ecommerce-sku-analytics.

The script is a single-pass batch pipeline over tabular rows: a numeric
cleaner for locale-formatted strings, a keyword categorizer, a composite
health scorer with tier assignment, per-row ratio derivation and 7-day
rolling means.  We embed each function shallowly: Python floats become ℚ
(the script only performs exact decimal arithmetic on them), rows become a
structure with the fields the script reads, and the `try/except` around
`float(...)` becomes an `Option`-returning parser whose failure is mapped
to `0.0` exactly as the source does.
-/

namespace DataTransformation

/-- A raw cell value as seen by `clean_european_number`: `none` models a
missing value (`None`/`NaN`, i.e. `pd.isna(value)` is true), `num` a Python
`int`/`float` that is an actual number, `str` a string cell. -/
inductive Value where
  | null : Value
  | num : ℚ → Value
  | str : String → Value
deriving DecidableEq, Repr

/-- Test for `'0' ≤ c ≤ '9'`, the characters accepted as digits by `float()`. -/
def isDigitChar (c : Char) : Bool := '0' ≤ c && c ≤ '9'

/-- Numeric value of a digit character. -/
def digitVal (c : Char) : ℕ := c.toNat - '0'.toNat

/-- Value of a fractional digit string: `fracVal [d₁, d₂, …] = 0.d₁d₂…`.
Fails (returns `none`) on any non-digit character. -/
def fracVal : List Char → Option ℚ
  | [] => some 0
  | c :: cs =>
    if isDigitChar c then
      (fracVal cs).map (fun r => ((digitVal c : ℚ) + r) / 10)
    else
      none

/-- Parse an unsigned decimal literal (digits, optionally a single `'.'`
followed by fractional digits).  `acc` is the integer part read so far and
`seen` records whether at least one integer-part digit was read; a lone
`"."` is rejected, matching Python's `float`. -/
def parseDec (acc : ℕ) (seen : Bool) : List Char → Option ℚ
  | [] => if seen then some (acc : ℚ) else none
  | c :: cs =>
    if c = '.' then
      if seen = false && cs = [] then none
      else (fracVal cs).map (fun f => (acc : ℚ) + f)
    else if isDigitChar c then
      parseDec (acc * 10 + digitVal c) true cs
    else
      none

/-- Model of Python's `float(...)` on a character list: an optional sign
followed by an unsigned decimal literal. -/
def pyFloatChars : List Char → Option ℚ
  | [] => none
  | c :: rest =>
    if c = '-' then (parseDec 0 false rest).map (fun q => -q)
    else if c = '+' then parseDec 0 false rest
    else parseDec 0 false (c :: rest)

/-- Model of Python's `float(s)` restricted to plain decimal literals
(optional sign, digits, optional fractional part) — the only shapes the
script's cleaned strings can take; exponent/`inf`/`nan` forms are outside
the cleaner's locale-number domain and are treated as unparseable. -/
def pyFloat (s : String) : Option ℚ := pyFloatChars s.data

/-- Model of `str(value).replace(' ', '')`: drop every space character. -/
def removeSpaces (s : String) : String := ⟨s.data.filter (fun c => c ≠ ' ')⟩

/-- Model of `.replace(',', '.')`: turn every comma into a period. -/
def commaToDot (s : String) : String :=
  ⟨s.data.map (fun c => if c = ',' then '.' else c)⟩

/-- Embedding of `clean_european_number` (src/scripts/data_transformation.py:16-31):
missing values return `0.0`; numeric values pass through as floats; a
string has spaces removed and commas turned into periods, then is parsed
with `float(...)`, a `ValueError` yielding `0.0`. -/
def clean_european_number : Value → ℚ
  | Value.null => 0
  | Value.num q => q
  | Value.str s =>
    match pyFloat (commaToDot (removeSpaces s)) with
    | some q => q
    | none => 0

/-- An SKU row after numeric cleaning, holding every field the scoring and
metric-derivation steps read.  The original `SKU` string is carried so
that re-assignment (and independence of the score from it) can be stated. -/
structure Row where
  sku : String
  Revenue : ℚ
  COGS : ℚ
  Amazon_Fees : ℚ
  Net_Profit : ℚ
  Units_Sold : ℚ
  Refunds : ℚ
  Margin_Pct : ℚ
  ROI_Pct : ℚ
deriving DecidableEq, Repr

/-- Profit-contribution adjustment of `calculate_health_score`
(lines 74-85): `+20/+15/+10/+5` above 500/200/100/50, `-15` below 0. -/
def profitAdj (net_profit : ℚ) : ℤ :=
  if net_profit > 500 then 20
  else if net_profit > 200 then 15
  else if net_profit > 100 then 10
  else if net_profit > 50 then 5
  else if net_profit < 0 then -15
  else 0

/-- Velocity adjustment (lines 87-96): `+15/+10/+5` above 50/25/10 units,
`-10` at exactly 0 units. -/
def velocityAdj (units : ℚ) : ℤ :=
  if units > 50 then 15
  else if units > 25 then 10
  else if units > 10 then 5
  else if units = 0 then -10
  else 0

/-- ROI adjustment (lines 98-105): `+10/+5` above 50/25, `-10` below 0. -/
def roiAdj (roi : ℚ) : ℤ :=
  if roi > 50 then 10
  else if roi > 25 then 5
  else if roi < 0 then -10
  else 0

/-- Margin adjustment (lines 107-112): `+5` above 20, `-5` below 5. -/
def marginAdj (margin : ℚ) : ℤ :=
  if margin > 20 then 5
  else if margin < 5 then -5
  else 0

/-- Embedding of `calculate_health_score` (lines 64-114): base 50, the four sequential
adjustments, then `max(0, min(100, score))`. -/
def calculate_health_score (row : Row) : ℤ :=
  let score : ℤ := 50
  let score := score + profitAdj row.Net_Profit
  let score := score + velocityAdj row.Units_Sold
  let score := score + roiAdj row.ROI_Pct
  let score := score + marginAdj row.Margin_Pct
  max 0 (min 100 score)

/-- Embedding of `assign_performance_tier` (lines 117-128). -/
def assign_performance_tier (health_score : ℤ) : String :=
  if health_score ≥ 80 then "Star"
  else if health_score ≥ 60 then "Strong"
  else if health_score ≥ 45 then "Average"
  else "Weak"

/-- Predicate `startsWithB p l` : the char list `p` is an initial segment of `l`. -/
def startsWithB : List Char → List Char → Bool
  | [], _ => true
  | _ :: _, [] => false
  | p :: ps, c :: cs => p = c && startsWithB ps cs

/-- Python's `needle in hay` for strings: `needle` occurs as a contiguous
substring of `hay` (at some position, the empty needle always matching). -/
def hasSubstr (needle : List Char) : List Char → Bool
  | [] => startsWithB needle []
  | c :: cs => startsWithB needle (c :: cs) || hasSubstr needle cs

/-- The `category_keywords` table of `assign_category` (lines 41-55), in
Python dict insertion order. -/
def category_keywords : List (String × List String) :=
  [("Electronics & Home", ["electronic", "cable", "charger", "adapter", "battery",
                           "home", "kitchen", "appliance", "tool"]),
   ("Fragrances", ["perfume", "cologne", "fragrance", "scent", "eau de"]),
   ("Beauty & Skincare", ["beauty", "skincare", "cream", "lotion", "makeup",
                          "cosmetic", "serum", "face"]),
   ("Consumables & Health", ["vitamin", "supplement", "health", "protein",
                             "snack", "food", "drink", "consumable"]),
   ("Collectibles & Toys", ["toy", "collectible", "figure", "game", "puzzle", "lego"]),
   ("Apparel & Footwear", ["shirt", "pants", "shoes", "clothing", "apparel",
                           "jacket", "dress", "footwear"]),
   ("Drinkware", ["mug", "cup", "bottle", "tumbler", "glass", "drinkware"]),
   ("Sports", ["sport", "fitness", "exercise", "gym", "outdoor", "athletic"]),
   ("Media & Entertainment", ["book", "dvd", "cd", "media", "movie", "music"])]

/-- Does the table entry `p` match `nameLower`: some keyword of `p.2`
occurs in `nameLower` (the `any(kw in name_lower for kw in keywords)` of
line 58). -/
def entryMatches (nameLower : List Char) (p : String × List String) : Bool :=
  p.2.any (fun kw => hasSubstr kw.data nameLower)

/-- Embedding of `assign_category` (lines 34-61): lower-case the name (ASCII model of
`str.lower()`), return the first table entry with a matching keyword,
`"Other"` when none matches. -/
def assign_category (product_name : String) : String :=
  let name_lower := product_name.data.map Char.toLower
  match category_keywords.find? (entryMatches name_lower) with
  | some p => p.1
  | none => "Other"

/-- The 10 labels `assign_category` can produce. -/
def categoryLabels : List String := category_keywords.map Prod.fst ++ ["Other"]

/-- An input row of `process_sku_data` as read from the CSV: the four
columns of `numeric_cols` (line 141) arrive as raw cell values to be
cleaned, while `Units_Sold` and `Refunds` are read as plain numbers (the
script does not clean them). -/
structure InputRow where
  sku : String
  Revenue : Value
  COGS : Value
  Amazon_Fees : Value
  Net_Profit : Value
  Units_Sold : ℚ
  Refunds : ℚ
deriving DecidableEq, Repr

/-- An output row of `process_sku_data`: the cleaned numerics plus every
derived column of lines 147-182. -/
structure OutRow where
  sku : String
  Revenue : ℚ
  COGS : ℚ
  Amazon_Fees : ℚ
  Net_Profit : ℚ
  Units_Sold : ℚ
  Refunds : ℚ
  Margin_Pct : ℚ
  ROI_Pct : ℚ
  Refund_Rate_Pct : ℚ
  Avg_Sale_Price : ℚ
  Profit_Per_Unit : ℚ
  Health_Score : ℤ
  Performance_Tier : String
deriving DecidableEq, Repr

/-- Embedding of `np.where(Revenue > 0, Net_Profit / Revenue * 100, 0)` (lines 147-151). -/
def marginPct (revenue net_profit : ℚ) : ℚ :=
  if revenue > 0 then net_profit / revenue * 100 else 0

/-- Embedding of `np.where(COGS.abs() > 0, Net_Profit / COGS.abs() * 100, 0)`
(lines 153-157): note the guard and the denominator use `|COGS|`. -/
def roiPct (cogs net_profit : ℚ) : ℚ :=
  if |cogs| > 0 then net_profit / |cogs| * 100 else 0

/-- Embedding of `np.where(Units_Sold > 0, Refunds / Units_Sold * 100, 0)` (159-163). -/
def refundRatePct (units refunds : ℚ) : ℚ :=
  if units > 0 then refunds / units * 100 else 0

/-- Embedding of `np.where(Units_Sold > 0, Revenue / Units_Sold, 0)` (lines 165-169). -/
def avgSalePrice (units revenue : ℚ) : ℚ :=
  if units > 0 then revenue / units else 0

/-- Embedding of `np.where(Units_Sold > 0, Net_Profit / Units_Sold, 0)` (lines 171-175). -/
def profitPerUnit (units net_profit : ℚ) : ℚ :=
  if units > 0 then net_profit / units else 0

/-- Left-pad a char list with `'0'` up to `width`. -/
def padLeftZeros (width : ℕ) (l : List Char) : List Char :=
  List.replicate (width - l.length) '0' ++ l

/-- Python `str.zfill(width)`: zero-pad on the left to `width`, keeping a
leading sign in front of the padding. -/
def zfill (width : ℕ) (s : String) : String :=
  match s.data with
  | '+' :: cs => ⟨'+' :: padLeftZeros (width - 1) cs⟩
  | '-' :: cs => ⟨'-' :: padLeftZeros (width - 1) cs⟩
  | l => ⟨padLeftZeros width l⟩

/-- The anonymized identifier of line 182: `f'SKU-{str(i+1).zfill(4)}'`
for 0-based row index `i`. -/
def skuLabel (i : ℕ) : String := "SKU-" ++ zfill 4 (Nat.repr (i + 1))

/-- The per-row body of `process_sku_data` (lines 140-179): clean the four
numeric columns, derive the five ratio/per-unit columns, then the health
score and tier.  The `SKU` column is overwritten afterwards. -/
def processSkuRow (r : InputRow) : OutRow :=
  let revenue := clean_european_number r.Revenue
  let cogs := clean_european_number r.COGS
  let fees := clean_european_number r.Amazon_Fees
  let net_profit := clean_european_number r.Net_Profit
  let margin := marginPct revenue net_profit
  let roi := roiPct cogs net_profit
  let score := calculate_health_score
    { sku := r.sku, Revenue := revenue, COGS := cogs, Amazon_Fees := fees,
      Net_Profit := net_profit, Units_Sold := r.Units_Sold,
      Refunds := r.Refunds, Margin_Pct := margin, ROI_Pct := roi }
  { sku := r.sku
    Revenue := revenue
    COGS := cogs
    Amazon_Fees := fees
    Net_Profit := net_profit
    Units_Sold := r.Units_Sold
    Refunds := r.Refunds
    Margin_Pct := margin
    ROI_Pct := roi
    Refund_Rate_Pct := refundRatePct r.Units_Sold r.Refunds
    Avg_Sale_Price := avgSalePrice r.Units_Sold revenue
    Profit_Per_Unit := profitPerUnit r.Units_Sold net_profit
    Health_Score := score
    Performance_Tier := assign_performance_tier score }

/-- Embedding of `process_sku_data` (lines 131-188) on an in-memory table: transform
every row, then overwrite the `SKU` column with sequential labels
(line 182). -/
def process_sku_data (rows : List InputRow) : List OutRow :=
  ((rows.map processSkuRow).enum).map (fun p => { p.2 with sku := skuLabel p.1 })

/-- A daily record as read by `process_daily_data`: `date` is an ordinal
day number (dates compare by `≤` exactly as `pd.to_datetime` values do). -/
structure DailyInput where
  date : ℤ
  Net_Profit : ℚ
  Units_Sold : ℚ
  Revenue : ℚ
  Sessions : ℚ
  Orders : ℚ
deriving DecidableEq, Repr

/-- Insert a record into a date-sorted list, keeping it sorted. -/
def insertByDate (r : DailyInput) : List DailyInput → List DailyInput
  | [] => [r]
  | x :: xs => if r.date ≤ x.date then r :: x :: xs else x :: insertByDate r xs

/-- Embedding of `df.sort_values('Date')` (line 202): sort the records by date
ascending. -/
def sortByDate : List DailyInput → List DailyInput
  | [] => []
  | r :: rs => insertByDate r (sortByDate rs)

/-- The trailing window pandas averages at position `i`: the elements of
`xs` at positions `i + 1 - w` through `i`. -/
def windowSlice (w : ℕ) (xs : List ℚ) (i : ℕ) : List ℚ :=
  (xs.take (i + 1)).drop (i + 1 - w)

/-- Model of `Series.rolling(window=w, min_periods=1).mean()` (lines 205-207): at
each position, the arithmetic mean of the trailing window (never fewer
than one sample, so no position is left missing). -/
def rollingMean (w : ℕ) (xs : List ℚ) : List ℚ :=
  (List.range xs.length).map
    (fun i => (windowSlice w xs i).sum / ((windowSlice w xs i).length : ℚ))

/-- The three 7-day moving-average columns of `process_daily_data`
(lines 201-207), computed after sorting by date. -/
def process_daily_data (rows : List DailyInput) : List ℚ × List ℚ × List ℚ :=
  let sorted := sortByDate rows
  (rollingMean 7 (sorted.map DailyInput.Net_Profit),
   rollingMean 7 (sorted.map DailyInput.Units_Sold),
   rollingMean 7 (sorted.map DailyInput.Revenue))

/-- Value denoted by the integer-part digits of a locale-formatted number
(most significant first): `digitsVal [5, 1, 9, 1] = 5191`. -/
def digitsVal (I : List ℕ) : ℕ := I.foldl (fun a d => a * 10 + d) 0

/-- Value denoted by the fractional digits of a locale-formatted number:
`fracQ [1, 6] = 0.16`. -/
def fracQ (F : List ℕ) : ℚ := F.foldr (fun d r => ((d : ℚ) + r) / 10) 0

/-! ## Theorems -/

/-- Each adjustment of the health score is bounded below by the worst
penalty of its threshold table. -/
lemma profitAdj_lb (q : ℚ) : -15 ≤ profitAdj q := by
  unfold profitAdj; split_ifs <;> norm_num

lemma velocityAdj_lb (q : ℚ) : -10 ≤ velocityAdj q := by
  unfold velocityAdj; split_ifs <;> norm_num

lemma roiAdj_lb (q : ℚ) : -10 ≤ roiAdj q := by
  unfold roiAdj; split_ifs <;> norm_num

lemma marginAdj_lb (q : ℚ) : -5 ≤ marginAdj q := by
  unfold marginAdj; split_ifs <;> norm_num

/-- C2: for every row with arbitrary values of `Net_Profit`, `Units_Sold`,
`ROI_Pct` and `Margin_Pct`, `calculate_health_score` returns an integer in
the closed interval `[0, 100]`. -/
theorem health_score_bounded (r : Row) :
    0 ≤ calculate_health_score r ∧ calculate_health_score r ≤ 100 := by
  simp only [calculate_health_score]
  omega

/-- C3: `calculate_health_score` is the clamp to `[0, 100]` of the base
score 50 plus the four independent threshold-table adjustments of
`Net_Profit`, `Units_Sold`, `ROI_Pct` and `Margin_Pct`; a row agreeing on
those four fields gets the same score whatever its other fields hold. -/
theorem health_score_decomposition (r r' : Row)
    (hp : r'.Net_Profit = r.Net_Profit) (hu : r'.Units_Sold = r.Units_Sold)
    (hroi : r'.ROI_Pct = r.ROI_Pct) (hm : r'.Margin_Pct = r.Margin_Pct) :
    calculate_health_score r' =
      max 0 (min 100 (50 + profitAdj r.Net_Profit + velocityAdj r.Units_Sold
        + roiAdj r.ROI_Pct + marginAdj r.Margin_Pct)) := by
  simp only [calculate_health_score, hp, hu, hroi, hm]

/-- Witness for C3: two rows sharing the four scored fields but differing
everywhere else produce the decomposed score. -/
theorem health_score_decomposition_witness :
    calculate_health_score
      { sku := "B", Revenue := 7, COGS := 3, Amazon_Fees := 2, Net_Profit := 600,
        Units_Sold := 60, Refunds := 1, Margin_Pct := 25, ROI_Pct := 60 } =
      max 0 (min 100 (50 + profitAdj 600 + velocityAdj 60 + roiAdj 60 + marginAdj 25)) :=
  health_score_decomposition
    { sku := "A", Revenue := 1, COGS := 1, Amazon_Fees := 1, Net_Profit := 600,
      Units_Sold := 60, Refunds := 0, Margin_Pct := 25, ROI_Pct := 60 }
    { sku := "B", Revenue := 7, COGS := 3, Amazon_Fees := 2, Net_Profit := 600,
      Units_Sold := 60, Refunds := 1, Margin_Pct := 25, ROI_Pct := 60 }
    rfl rfl rfl rfl

/-- C4: `assign_performance_tier` maps a score to `Star` exactly on
`[80, ∞)`, `Strong` on `[60, 80)`, `Average` on `[45, 60)` and `Weak`
below 45; in particular 80 is a `Star` and 59 an `Average`. -/
theorem performance_tier_thresholds (s : ℤ) :
    ((assign_performance_tier s = "Star") ↔ 80 ≤ s) ∧
    ((assign_performance_tier s = "Strong") ↔ 60 ≤ s ∧ s < 80) ∧
    ((assign_performance_tier s = "Average") ↔ 45 ≤ s ∧ s < 60) ∧
    ((assign_performance_tier s = "Weak") ↔ s < 45) ∧
    assign_performance_tier 80 = "Star" ∧ assign_performance_tier 59 = "Average" := by
  refine ⟨?_, ?_, ?_, ?_, by decide, by decide⟩ <;>
  · unfold assign_performance_tier
    split_ifs with h1 h2 h3 <;> simp_all <;> omega

/-- C10: the health score never drops below 10 (so the lower clamp at 0 is
never binding), and both 10 and 100 are attained, making the actual range
`[10, 100]`. -/
theorem health_score_floor_ten :
    (∀ r : Row, 10 ≤ calculate_health_score r) ∧
    calculate_health_score
      { sku := "", Revenue := 0, COGS := 0, Amazon_Fees := 0, Net_Profit := -1,
        Units_Sold := 0, Refunds := 0, Margin_Pct := 0, ROI_Pct := -1 } = 10 ∧
    calculate_health_score
      { sku := "", Revenue := 0, COGS := 0, Amazon_Fees := 0, Net_Profit := 501,
        Units_Sold := 51, Refunds := 0, Margin_Pct := 21, ROI_Pct := 51 } = 100 := by
  refine ⟨fun r => ?_, by decide, by decide⟩
  have h1 := profitAdj_lb r.Net_Profit
  have h2 := velocityAdj_lb r.Units_Sold
  have h3 := roiAdj_lb r.ROI_Pct
  have h4 := marginAdj_lb r.Margin_Pct
  simp only [calculate_health_score]
  omega

/-- C1 counterexample: a row whose `COGS` cleans to `-100` (non-positive)
with `Net_Profit` 50 gets `ROI_Pct = 50`, not `0`: the code guards on
`COGS.abs() > 0`, so only `COGS = 0` yields a zero ROI. -/
theorem roi_pct_negative_cogs_counterexample :
    (processSkuRow
      { sku := "X", Revenue := Value.num 0, COGS := Value.num (-100),
        Amazon_Fees := Value.num 0, Net_Profit := Value.num 50,
        Units_Sold := 0, Refunds := 0 }).COGS ≤ 0 ∧
    (processSkuRow
      { sku := "X", Revenue := Value.num 0, COGS := Value.num (-100),
        Amazon_Fees := Value.num 0, Net_Profit := Value.num 50,
        Units_Sold := 0, Refunds := 0 }).ROI_Pct = 50 := by
  constructor
  · norm_num [processSkuRow, clean_european_number]
  · norm_num [processSkuRow, clean_european_number, roiPct]

/-- C1 amended: in every processed row the guarded ratios are total (no
division by zero is ever performed, each guard supplies `0` instead):
`Margin_Pct` and `Refund_Rate_Pct` are `0` whenever `Revenue` resp.
`Units_Sold` is non-positive and equal `(numerator/denominator) * 100`
when it is positive, while `ROI_Pct` is `0` exactly when `COGS = 0` and
otherwise equals `(Net_Profit / |COGS|) * 100`. -/
theorem derived_ratios_guarded (r : InputRow) :
    ((processSkuRow r).Revenue ≤ 0 → (processSkuRow r).Margin_Pct = 0) ∧
    (0 < (processSkuRow r).Revenue →
      (processSkuRow r).Margin_Pct =
        (processSkuRow r).Net_Profit / (processSkuRow r).Revenue * 100) ∧
    ((processSkuRow r).Units_Sold ≤ 0 → (processSkuRow r).Refund_Rate_Pct = 0) ∧
    (0 < (processSkuRow r).Units_Sold →
      (processSkuRow r).Refund_Rate_Pct =
        (processSkuRow r).Refunds / (processSkuRow r).Units_Sold * 100) ∧
    ((processSkuRow r).COGS = 0 → (processSkuRow r).ROI_Pct = 0) ∧
    ((processSkuRow r).COGS ≠ 0 →
      (processSkuRow r).ROI_Pct =
        (processSkuRow r).Net_Profit / |(processSkuRow r).COGS| * 100) := by
  simp only [processSkuRow]
  refine ⟨fun h => ?_, fun h => ?_, fun h => ?_, fun h => ?_, fun h => ?_, fun h => ?_⟩
  · simp [marginPct, not_lt.2 h]
  · simp [marginPct, h]
  · simp [refundRatePct, not_lt.2 h]
  · simp [refundRatePct, h]
  · simp [roiPct, h]
  · simp [roiPct, abs_pos.2 h]

/-- Witness for C1 (amended): a concrete row with negative `Revenue`,
positive `Units_Sold` and zero `COGS` exercises three of the guards. -/
theorem derived_ratios_guarded_witness :
    (processSkuRow
      { sku := "W", Revenue := Value.num (-5), COGS := Value.num 0,
        Amazon_Fees := Value.num 0, Net_Profit := Value.num 3,
        Units_Sold := 2, Refunds := 1 }).Margin_Pct = 0 ∧
    (processSkuRow
      { sku := "W", Revenue := Value.num (-5), COGS := Value.num 0,
        Amazon_Fees := Value.num 0, Net_Profit := Value.num 3,
        Units_Sold := 2, Refunds := 1 }).Refund_Rate_Pct =
      (processSkuRow
        { sku := "W", Revenue := Value.num (-5), COGS := Value.num 0,
          Amazon_Fees := Value.num 0, Net_Profit := Value.num 3,
          Units_Sold := 2, Refunds := 1 }).Refunds /
        (processSkuRow
          { sku := "W", Revenue := Value.num (-5), COGS := Value.num 0,
            Amazon_Fees := Value.num 0, Net_Profit := Value.num 3,
            Units_Sold := 2, Refunds := 1 }).Units_Sold * 100 ∧
    (processSkuRow
      { sku := "W", Revenue := Value.num (-5), COGS := Value.num 0,
        Amazon_Fees := Value.num 0, Net_Profit := Value.num 3,
        Units_Sold := 2, Refunds := 1 }).ROI_Pct = 0 :=
  ⟨(derived_ratios_guarded _).1 (by norm_num [processSkuRow, clean_european_number]),
   (derived_ratios_guarded _).2.2.2.1 (by norm_num [processSkuRow]),
   (derived_ratios_guarded _).2.2.2.2.1 (by norm_num [processSkuRow, clean_european_number])⟩

/-- C6: `clean_european_number` is total — a missing value and every
unparseable string resolve to `0.0`; no exception escapes (the modelled
`try/except` is the `Option`-match, whose `none` branch is `0`). -/
theorem clean_european_number_total :
    clean_european_number Value.null = 0 ∧
    (∀ s : String, pyFloat (commaToDot (removeSpaces s)) = none →
      clean_european_number (Value.str s) = 0) ∧
    clean_european_number (Value.str "not a number") = 0 ∧
    clean_european_number (Value.str "1,2,3") = 0 := by
  refine ⟨rfl, fun s h => ?_, ?_, ?_⟩
  · simp [clean_european_number, h]
  · simp [clean_european_number, pyFloat, pyFloatChars, removeSpaces, commaToDot,
      parseDec, fracVal, isDigitChar]
  · simp [clean_european_number, pyFloat, pyFloatChars, removeSpaces, commaToDot,
      parseDec, fracVal, isDigitChar]

/-- Witness for C6: the string `"abc"` is unparseable and cleans to `0`. -/
theorem clean_european_number_total_witness :
    clean_european_number (Value.str "abc") = 0 :=
  clean_european_number_total.2.1 "abc"
    (by simp [pyFloat, pyFloatChars, removeSpaces, commaToDot, parseDec, isDigitChar])

/-- A first-match characterization of `List.find?`: if the element at
position `i` satisfies `p` and no earlier element does, `find?` returns
exactly that element. -/
lemma find?_eq_get_of_first {α : Type} (l : List α) (p : α → Bool) :
    ∀ (i : ℕ) (h : i < l.length), p (l.get ⟨i, h⟩) = true →
      (∀ j (hj : j < i), p (l.get ⟨j, Nat.lt_trans hj h⟩) = false) →
      l.find? p = some (l.get ⟨i, h⟩) := by
  induction l with
  | nil => intro i h; exact absurd h (Nat.not_lt_zero i)
  | cons a t ih =>
    intro i h hp hmin
    cases i with
    | zero => simp only [List.get] at hp ⊢; simp [List.find?, hp]
    | succ k =>
      have ha : p a = false := hmin 0 (Nat.succ_pos k)
      simp only [List.get] at hp ⊢
      rw [List.find?_cons, ha]
      exact ih k (Nat.lt_of_succ_lt_succ h) hp
        (fun j hj => hmin (j + 1) (Nat.succ_lt_succ hj))

/-- C7: `assign_category` always produces one of the 10 fixed labels; it
returns the first table entry (in order) any of whose keywords occurs in
the lower-cased name, and `"Other"` when no keyword matches; in particular
`"USB Charger Cable"` lands in `"Electronics & Home"`. -/
theorem assign_category_first_match :
    (∀ name, assign_category name ∈ categoryLabels) ∧
    (∀ (name : String) (i : ℕ) (h : i < category_keywords.length),
      entryMatches (name.data.map Char.toLower) (category_keywords.get ⟨i, h⟩) = true →
      (∀ j (hj : j < i),
        entryMatches (name.data.map Char.toLower)
          (category_keywords.get ⟨j, Nat.lt_trans hj h⟩) = false) →
      assign_category name = (category_keywords.get ⟨i, h⟩).1) ∧
    (∀ name : String,
      (∀ p ∈ category_keywords, entryMatches (name.data.map Char.toLower) p = false) →
      assign_category name = "Other") ∧
    assign_category "USB Charger Cable" = "Electronics & Home" ∧
    assign_category "Mystery Widget" = "Other" := by
  refine ⟨fun name => ?_, fun name i h hp hmin => ?_, fun name hnone => ?_,
    by decide, by decide⟩
  · simp only [assign_category]
    cases hf : category_keywords.find? (entryMatches (name.data.map Char.toLower)) with
    | none => simp [hf, categoryLabels]
    | some p =>
      have hmem : p ∈ category_keywords := List.mem_of_find?_eq_some hf
      simp only [hf, categoryLabels, List.mem_append]
      exact Or.inl (List.mem_map.2 ⟨p, hmem, rfl⟩)
  · simp only [assign_category]
    rw [find?_eq_get_of_first category_keywords _ i h hp hmin]
  · simp only [assign_category]
    rw [List.find?_eq_none.2 (fun p hp => by simp [hnone p hp])]

/-- Witness for C7: the first table entry matches `"USB Charger Cable"`
(the keyword `cable` occurs), so the category is `Electronics & Home`. -/
theorem assign_category_first_match_witness :
    assign_category "USB Charger Cable" =
      (category_keywords.get ⟨0, by decide⟩).1 :=
  assign_category_first_match.2.1 "USB Charger Cable" 0 (by decide) (by decide)
    (fun j hj => absurd hj (Nat.not_lt_zero j))

/-- Facts about decimal digit characters `Nat.digitChar d` for `d < 10`:
they are digits, carry their value, and are none of the special
characters the cleaner or parser treats specially. -/
lemma digitChar_facts (d : ℕ) (h : d < 10) :
    isDigitChar (Nat.digitChar d) = true ∧ digitVal (Nat.digitChar d) = d ∧
    Nat.digitChar d ≠ '.' ∧ Nat.digitChar d ≠ ',' ∧ Nat.digitChar d ≠ '-' ∧
    Nat.digitChar d ≠ '+' := by
  interval_cases d <;> decide

/-- Replacing commas by periods leaves a digit string unchanged. -/
lemma commaToDot_digits (I : List ℕ) (hI : ∀ d ∈ I, d < 10) :
    (I.map Nat.digitChar).map (fun c => if c = ',' then '.' else c) =
      I.map Nat.digitChar := by
  rw [List.map_map]
  exact List.map_congr_left (fun x hx => by
    simp [(digitChar_facts x (hI x hx)).2.2.2.1])

/-- Fraction parsing of a digit string yields the denoted fraction. -/
lemma fracVal_map_digits (F : List ℕ) (hF : ∀ d ∈ F, d < 10) :
    fracVal (F.map Nat.digitChar) = some (fracQ F) := by
  induction F with
  | nil => rfl
  | cons d F ih =>
    have hd := digitChar_facts d (hF d (List.mem_cons_self d F))
    simp only [List.map_cons, fracVal, hd.1, if_true]
    rw [ih (fun x hx => hF x (List.mem_cons_of_mem d hx))]
    simp [fracQ, hd.2.1]

/-- Reading a non-empty block of digit characters accumulates their
decimal value and marks the integer part as seen. -/
lemma parseDec_digits (I : List ℕ) :
    ∀ (acc : ℕ) (rest : List Char) (seen : Bool), I ≠ [] → (∀ d ∈ I, d < 10) →
      parseDec acc seen (I.map Nat.digitChar ++ rest) =
        parseDec (I.foldl (fun a d => a * 10 + d) acc) true rest := by
  induction I with
  | nil => intro _ _ _ hne _; exact absurd rfl hne
  | cons d I ih =>
    intro acc rest seen _ hd10
    have hd := digitChar_facts d (hd10 d (List.mem_cons_self d I))
    simp only [List.map_cons, List.cons_append, parseDec]
    rw [if_neg hd.2.2.1]
    simp only [hd.1, if_true, hd.2.1]
    cases I with
    | nil => simp
    | cons d' I' =>
      rw [List.append_eq, ih (acc * 10 + d) rest true (by simp)
        (fun x hx => hd10 x (List.mem_cons_of_mem d hx))]
      simp

/-- A leading digit character is not a sign, so the sign test of the
float model falls through to the unsigned parser. -/
lemma pyFloatChars_digits (I : List ℕ) (hne : I ≠ []) (hI : ∀ d ∈ I, d < 10)
    (rest : List Char) :
    pyFloatChars (I.map Nat.digitChar ++ rest) =
      parseDec 0 false (I.map Nat.digitChar ++ rest) := by
  obtain ⟨d, I', rfl⟩ : ∃ d I', I = d :: I' := by
    cases I with
    | nil => exact absurd rfl hne
    | cons a b => exact ⟨a, b, rfl⟩
  have hd := digitChar_facts d (hI d (List.mem_cons_self d I'))
  simp [pyFloatChars, hd.2.2.2.2.1, hd.2.2.2.2.2]

/-- After the integer part, a period followed by digit characters parses
to the accumulated value plus the denoted fraction. -/
lemma parseDec_dot_frac (A : ℕ) (F : List ℕ) (hF : ∀ d ∈ F, d < 10) :
    parseDec A true ('.' :: F.map Nat.digitChar) = some ((A : ℚ) + fracQ F) := by
  simp [parseDec, fracVal_map_digits F hF]

/-- C5: `clean_european_number` converts any locale-formatted numeric
string — digit characters with spaces interspersed as thousands
separators, a comma as decimal separator (optionally absent) — to the
rational it denotes, passes numeric cells through unchanged, maps
`"5 191,16"` to `5191.16`, and maps a missing value to `0`. -/
theorem clean_european_number_locale :
    (∀ (I F : List ℕ) (s : String), I ≠ [] → (∀ d ∈ I, d < 10) → (∀ d ∈ F, d < 10) →
      s.data.filter (fun c => c ≠ ' ') =
        I.map Nat.digitChar ++ ',' :: F.map Nat.digitChar →
      clean_european_number (Value.str s) = (digitsVal I : ℚ) + fracQ F) ∧
    (∀ (I : List ℕ) (s : String), I ≠ [] → (∀ d ∈ I, d < 10) →
      s.data.filter (fun c => c ≠ ' ') = I.map Nat.digitChar →
      clean_european_number (Value.str s) = (digitsVal I : ℚ)) ∧
    (∀ q : ℚ, clean_european_number (Value.num q) = q) ∧
    clean_european_number (Value.str "5 191,16") = 5191 + 16 / 100 ∧
    clean_european_number Value.null = 0 := by
  refine ⟨fun I F s hne hI hF hs => ?_, fun I s hne hI hs => ?_, fun q => rfl, ?_, rfl⟩
  · simp only [clean_european_number, pyFloat, commaToDot, removeSpaces]
    rw [hs, List.map_append, List.map_cons, commaToDot_digits I hI,
      commaToDot_digits F hF]
    rw [show (if (',' : Char) = ',' then '.' else ',') = '.' from rfl]
    rw [pyFloatChars_digits I hne hI, parseDec_digits I 0 _ false hne hI,
      parseDec_dot_frac _ F hF]
    simp [digitsVal]
  · simp only [clean_european_number, pyFloat, commaToDot, removeSpaces]
    rw [hs, commaToDot_digits I hI]
    rw [show (I.map Nat.digitChar) = I.map Nat.digitChar ++ [] from (List.append_nil _).symm,
      pyFloatChars_digits I hne hI, parseDec_digits I 0 _ false hne hI]
    simp [parseDec, digitsVal]
  · simp [clean_european_number, removeSpaces, commaToDot, pyFloat, pyFloatChars,
      parseDec, fracVal, isDigitChar, digitVal]
    norm_num

/-- Witness for C5: the locale string `"5 191,16"` with integer digits
`5 1 9 1` and fraction digits `1 6` cleans to its denoted value. -/
theorem clean_european_number_locale_witness :
    clean_european_number (Value.str "5 191,16") =
      (digitsVal [5, 1, 9, 1] : ℚ) + fracQ [1, 6] :=
  clean_european_number_locale.1 [5, 1, 9, 1] [1, 6] "5 191,16"
    (by decide) (by decide) (by decide) (by decide)

/-- Sum of a list as a sum of its positions. -/
lemma list_sum_getD (xs : List ℚ) :
    xs.sum = ∑ j in Finset.range xs.length, xs.getD j 0 := by
  induction xs with
  | nil => simp
  | cons x t ih =>
    rw [List.sum_cons, List.length_cons, Finset.sum_range_succ']
    simp [ih, add_comm]

/-- The trailing window at a valid position holds `min (i+1) w` samples. -/
lemma windowSlice_length (w : ℕ) (xs : List ℚ) (i : ℕ) (h : i < xs.length) :
    (windowSlice w xs i).length = min (i + 1) w := by
  simp [windowSlice]
  omega

/-- Elements of the trailing window are the list elements shifted by the
window start `i + 1 - w`. -/
lemma windowSlice_getD (w : ℕ) (xs : List ℚ) (i j : ℕ) (h : i < xs.length)
    (hj : j < min (i + 1) w) :
    (windowSlice w xs i).getD j 0 = xs.getD (i + 1 - w + j) 0 := by
  have h1 : j < (windowSlice w xs i).length := by
    rw [windowSlice_length w xs i h]; exact hj
  rw [List.getD_eq_getElem _ _ h1,
    List.getD_eq_getElem _ _ (by omega : i + 1 - w + j < xs.length)]
  simp [windowSlice, List.getElem_drop, List.getElem_take]

/-- The trailing window sums the list over positions `i+1-w … i`. -/
lemma windowSlice_sum (w : ℕ) (xs : List ℚ) (i : ℕ) (h : i < xs.length) :
    (windowSlice w xs i).sum =
      ∑ j in Finset.Ico (i + 1 - w) (i + 1), xs.getD j 0 := by
  rw [list_sum_getD, windowSlice_length w xs i h, Finset.sum_Ico_eq_sum_range]
  have hn : i + 1 - (i + 1 - w) = min (i + 1) w := by omega
  rw [hn]
  exact Finset.sum_congr rfl
    (fun j hj => windowSlice_getD w xs i j h (Finset.mem_range.1 hj))

/-- The rolling mean at a valid position is the mean of its window. -/
lemma rollingMean_getD (w : ℕ) (xs : List ℚ) (i : ℕ) (h : i < xs.length) :
    (rollingMean w xs).getD i 0 =
      (windowSlice w xs i).sum / ((windowSlice w xs i).length : ℚ) := by
  have hlen : i < (rollingMean w xs).length := by simpa [rollingMean] using h
  rw [List.getD_eq_getElem _ _ hlen]
  simp [rollingMean]

/-- C8: after sorting by date, each of the three 7-day moving averages at
position `i` is the arithmetic mean of its column over the last
`min (i+1) 7` records, i.e. positions `i - 6` (truncated at 0) through
`i`. -/
theorem daily_seven_day_moving_averages (rows : List DailyInput) (i : ℕ)
    (h : i < (sortByDate rows).length) :
    ((process_daily_data rows).1.getD i 0 =
      (∑ j in Finset.Icc (i - 6) i,
        ((sortByDate rows).map DailyInput.Net_Profit).getD j 0) /
        ((min (i + 1) 7 : ℕ) : ℚ)) ∧
    ((process_daily_data rows).2.1.getD i 0 =
      (∑ j in Finset.Icc (i - 6) i,
        ((sortByDate rows).map DailyInput.Units_Sold).getD j 0) /
        ((min (i + 1) 7 : ℕ) : ℚ)) ∧
    ((process_daily_data rows).2.2.getD i 0 =
      (∑ j in Finset.Icc (i - 6) i,
        ((sortByDate rows).map DailyInput.Revenue).getD j 0) /
        ((min (i + 1) 7 : ℕ) : ℚ)) := by
  have hset : Finset.Ico (i + 1 - 7) (i + 1) = Finset.Icc (i - 6) i := by
    apply Finset.ext
    intro x
    simp only [Finset.mem_Ico, Finset.mem_Icc]
    omega
  have key : ∀ xs : List ℚ, xs.length = (sortByDate rows).length →
      (rollingMean 7 xs).getD i 0 =
        (∑ j in Finset.Icc (i - 6) i, xs.getD j 0) / ((min (i + 1) 7 : ℕ) : ℚ) := by
    intro xs hx
    have hi : i < xs.length := hx ▸ h
    rw [rollingMean_getD 7 xs i hi, windowSlice_sum 7 xs i hi,
      windowSlice_length 7 xs i hi, hset]
  simp only [process_daily_data]
  exact ⟨key _ (by simp), key _ (by simp), key _ (by simp)⟩

/-- Witness for C8: three out-of-order daily records, checked at the
middle position of the sorted order. -/
theorem daily_seven_day_moving_averages_witness :
    ((process_daily_data
      [{ date := 3, Net_Profit := 30, Units_Sold := 3, Revenue := 300,
         Sessions := 10, Orders := 1 },
       { date := 1, Net_Profit := 10, Units_Sold := 1, Revenue := 100,
         Sessions := 10, Orders := 1 },
       { date := 2, Net_Profit := 20, Units_Sold := 2, Revenue := 200,
         Sessions := 10, Orders := 1 }]).1.getD 1 0 =
      (∑ j in Finset.Icc (1 - 6) 1,
        ((sortByDate
          [{ date := 3, Net_Profit := 30, Units_Sold := 3, Revenue := 300,
             Sessions := 10, Orders := 1 },
           { date := 1, Net_Profit := 10, Units_Sold := 1, Revenue := 100,
             Sessions := 10, Orders := 1 },
           { date := 2, Net_Profit := 20, Units_Sold := 2, Revenue := 200,
             Sessions := 10, Orders := 1 }]).map DailyInput.Net_Profit).getD j 0) /
        ((min (1 + 1) 7 : ℕ) : ℚ)) ∧
    ((process_daily_data
      [{ date := 3, Net_Profit := 30, Units_Sold := 3, Revenue := 300,
         Sessions := 10, Orders := 1 },
       { date := 1, Net_Profit := 10, Units_Sold := 1, Revenue := 100,
         Sessions := 10, Orders := 1 },
       { date := 2, Net_Profit := 20, Units_Sold := 2, Revenue := 200,
         Sessions := 10, Orders := 1 }]).2.1.getD 1 0 =
      (∑ j in Finset.Icc (1 - 6) 1,
        ((sortByDate
          [{ date := 3, Net_Profit := 30, Units_Sold := 3, Revenue := 300,
             Sessions := 10, Orders := 1 },
           { date := 1, Net_Profit := 10, Units_Sold := 1, Revenue := 100,
             Sessions := 10, Orders := 1 },
           { date := 2, Net_Profit := 20, Units_Sold := 2, Revenue := 200,
             Sessions := 10, Orders := 1 }]).map DailyInput.Units_Sold).getD j 0) /
        ((min (1 + 1) 7 : ℕ) : ℚ)) ∧
    ((process_daily_data
      [{ date := 3, Net_Profit := 30, Units_Sold := 3, Revenue := 300,
         Sessions := 10, Orders := 1 },
       { date := 1, Net_Profit := 10, Units_Sold := 1, Revenue := 100,
         Sessions := 10, Orders := 1 },
       { date := 2, Net_Profit := 20, Units_Sold := 2, Revenue := 200,
         Sessions := 10, Orders := 1 }]).2.2.getD 1 0 =
      (∑ j in Finset.Icc (1 - 6) 1,
        ((sortByDate
          [{ date := 3, Net_Profit := 30, Units_Sold := 3, Revenue := 300,
             Sessions := 10, Orders := 1 },
           { date := 1, Net_Profit := 10, Units_Sold := 1, Revenue := 100,
             Sessions := 10, Orders := 1 },
           { date := 2, Net_Profit := 20, Units_Sold := 2, Revenue := 200,
             Sessions := 10, Orders := 1 }]).map DailyInput.Revenue).getD j 0) /
        ((min (1 + 1) 7 : ℕ) : ℚ)) :=
  daily_seven_day_moving_averages _ 1 (by decide)

/-- The output SKU column is the sequential label list, whatever the rows
held. -/
lemma sku_column_eq (rows : List InputRow) :
    (process_sku_data rows).map OutRow.sku =
      (List.range rows.length).map skuLabel := by
  unfold process_sku_data
  rw [List.map_map,
    show (OutRow.sku ∘ fun p : ℕ × OutRow => { p.2 with sku := skuLabel p.1 }) =
      (skuLabel ∘ Prod.fst) from rfl,
    ← List.map_map, List.enum_map_fst, List.length_map]

/-- C9: `process_sku_data` overwrites the SKU column sequentially: row `i`
(0-based) gets `SKU-` followed by `i+1` zero-padded to at least 4 digits,
and the whole column depends only on the number of rows, not on any
original SKU value. -/
theorem sku_sequential_reassignment (rows : List InputRow) (i : ℕ)
    (h : i < rows.length) :
    ((process_sku_data rows).map OutRow.sku).getD i "" =
      "SKU-" ++ zfill 4 (Nat.repr (i + 1)) ∧
    ∀ rows' : List InputRow, rows'.length = rows.length →
      (process_sku_data rows').map OutRow.sku =
        (process_sku_data rows).map OutRow.sku := by
  constructor
  · rw [sku_column_eq]
    have h1 : i < ((List.range rows.length).map skuLabel).length := by simpa using h
    rw [List.getD_eq_getElem _ _ h1]
    simp [skuLabel]
  · intro rows' hlen
    rw [sku_column_eq, sku_column_eq, hlen]

/-- Witness for C9: a two-row table gets `SKU-0001` and a table of equal
length with different contents gets the identical SKU column. -/
theorem sku_sequential_reassignment_witness :
    ((process_sku_data
      [{ sku := "OLD-A", Revenue := Value.num 1, COGS := Value.num 1,
         Amazon_Fees := Value.num 0, Net_Profit := Value.num 0,
         Units_Sold := 1, Refunds := 0 }]).map OutRow.sku).getD 0 "" =
      "SKU-" ++ zfill 4 (Nat.repr (0 + 1)) ∧
    (process_sku_data
      [{ sku := "OLD-B", Revenue := Value.num 9, COGS := Value.num 4,
         Amazon_Fees := Value.num 1, Net_Profit := Value.num 2,
         Units_Sold := 3, Refunds := 1 }]).map OutRow.sku =
      (process_sku_data
        [{ sku := "OLD-A", Revenue := Value.num 1, COGS := Value.num 1,
           Amazon_Fees := Value.num 0, Net_Profit := Value.num 0,
           Units_Sold := 1, Refunds := 0 }]).map OutRow.sku :=
  ⟨(sku_sequential_reassignment _ 0 (by decide)).1,
   (sku_sequential_reassignment
      [{ sku := "OLD-A", Revenue := Value.num 1, COGS := Value.num 1,
         Amazon_Fees := Value.num 0, Net_Profit := Value.num 0,
         Units_Sold := 1, Refunds := 0 }] 0 (by decide)).2 _ rfl⟩

end DataTransformation
